import Mathlib

/-!
Verification of the MSTI-AI-Contest portfolio-bot repository.

The Python sources (`src/app.py`, `src/tools/job_compatibility_tool.py`,
`src/tools/tool_definitions.py`) are shallowly embedded below: pure string
and list manipulation becomes Lean functions on `String` / `List Char`,
Python floats used for similarity scores become `ℝ` (exact arithmetic),
keyword-boost scores become `ℚ`, fallible calls become `Except`, and the
model/LLM and file-system environments become explicit input data.
-/

namespace Portfolio

/-! ## Python string primitives

`pyLowerChar` models Python `str.lower()` character by character (ASCII
letters plus the Turkish uppercase letters that occur in this code base;
`İ` lowers to the two-character sequence `i` + combining dot above, as in
CPython). `hasSub` models the Python `in` substring test, `pyStrip`
models `str.strip()` with no arguments (whitespace on both ends). -/

def pyLowerChar (c : Char) : List Char :=
  if 'A' ≤ c ∧ c ≤ 'Z' then [Char.ofNat (c.toNat + 32)]
  else if c = 'Ç' then ['ç']
  else if c = 'Ğ' then ['ğ']
  else if c = 'İ' then ['i', Char.ofNat 0x307]
  else if c = 'Ö' then ['ö']
  else if c = 'Ş' then ['ş']
  else if c = 'Ü' then ['ü']
  else if c = 'I' then ['i']
  else [c]

def pyLowerL (l : List Char) : List Char :=
  (l.map pyLowerChar).flatten

def pyLower (s : String) : String :=
  String.mk (pyLowerL s.toList)

/-- `leadsWith needle hay` is true when `needle` occurs at the start of `hay`. -/
def leadsWith : List Char → List Char → Bool
  | [], _ => true
  | _ :: _, [] => false
  | a :: as, b :: bs => a == b && leadsWith as bs

/-- Python `needle in hay` substring containment on character lists. -/
def hasSub (needle : List Char) : List Char → Bool
  | [] => needle.isEmpty
  | c :: rest => leadsWith needle (c :: rest) || hasSub needle rest

/-- Python `needle in hay` on strings. -/
def hasSubS (needle hay : String) : Bool :=
  hasSub needle.toList hay.toList

/-- Characters removed by Python `str.strip()` (ASCII whitespace). -/
def isPySpace (c : Char) : Bool :=
  c = ' ' ∨ c = '\t' ∨ c = '\n' ∨ c = '\x0d' ∨ c = Char.ofNat 11 ∨ c = Char.ofNat 12

def pyStripL (l : List Char) : List Char :=
  (((l.dropWhile isPySpace).reverse.dropWhile isPySpace)).reverse

def pyStripS (s : String) : String :=
  String.mk (pyStripL s.toList)

/-- Python `opt or dflt` on an optional string: `None` and `""` are falsy. -/
def pyOr (o : Option String) (dflt : String) : String :=
  match o with
  | none => dflt
  | some s => if s = "" then dflt else s

/-! ## Keyword boost (src/app.py, `_calculate_keyword_boost`, lines 1251-1279)

The trigger table is the `keyword_mappings` dict, in its Python insertion
order; `AppConstants.KEYWORD_BOOST_SCORE = 0.2` (src/app.py, line 370),
embedded as the exact rational `1/5`. -/

def KEYWORD_BOOST_SCORE : ℚ := 1/5

def keyword_mappings : List (String × List String) :=
  [ ("proje", ["project", "proje"]),
    ("projects", ["project", "proje"]),
    ("deneyim", ["experience", "deneyim", "work", "iş"]),
    ("experience", ["experience", "deneyim", "work", "iş"]),
    ("work", ["experience", "deneyim", "work", "iş"]),
    ("iş", ["experience", "deneyim", "work", "iş"]),
    ("çalış", ["experience", "deneyim", "work", "iş"]),
    ("eğitim", ["education", "eğitim", "university", "üniversite", "degree", "derece"]),
    ("education", ["education", "eğitim", "university", "üniversite", "degree", "derece"]),
    ("university", ["education", "eğitim", "university", "üniversite"]),
    ("üniversite", ["education", "eğitim", "university", "üniversite"]) ]

/-- A trigger entry fires when its key occurs in the lowercased query and
any of its synonyms occurs in the lowercased chunk (the inner `for` loop
with `break` adds the increment at most once per trigger). -/
def triggerFires (query chunk : String) (kv : String × List String) : Bool :=
  hasSubS kv.1 (pyLower query) && kv.2.any (fun syn => hasSubS syn (pyLower chunk))

/-- `_calculate_keyword_boost(query, chunk)`: one `KEYWORD_BOOST_SCORE`
increment per firing trigger, accumulated over `keyword_mappings`. -/
def calculate_keyword_boost (query chunk : String) : ℚ :=
  keyword_mappings.foldl
    (fun boost kv => if triggerFires query chunk kv then boost + KEYWORD_BOOST_SCORE else boost)
    0

lemma boost_foldl_eq (query chunk : String) (l : List (String × List String)) (acc : ℚ) :
    l.foldl
      (fun boost kv => if triggerFires query chunk kv then boost + KEYWORD_BOOST_SCORE else boost)
      acc = acc + KEYWORD_BOOST_SCORE * l.countP (triggerFires query chunk) := by
  induction l generalizing acc with
  | nil => simp [List.countP_nil]
  | cons kv rest ih =>
    by_cases h : triggerFires query chunk kv
    · simp only [List.foldl_cons, h, if_pos, List.countP_cons, h]
      rw [ih]
      push_cast
      ring
    · simp only [List.foldl_cons, h, if_neg, List.countP_cons]
      rw [ih]
      simp [h]

/-- The boost is exactly `0.2` times the number of firing triggers. -/
lemma calculate_keyword_boost_eq_count (query chunk : String) :
    calculate_keyword_boost query chunk
      = KEYWORD_BOOST_SCORE * keyword_mappings.countP (triggerFires query chunk) := by
  have h := boost_foldl_eq query chunk keyword_mappings 0
  simpa [calculate_keyword_boost] using h

/-! ## Language detection (src/app.py, `LanguageDetector`, lines 737-822)

`detect_from_text` is a pure function of the message text. The keyword,
phrase and greeting tables are transcribed from the class attributes;
Python sets become duplicate-free lists, and `text.lower().strip()`
becomes `pyStripL (pyLowerL text)`. -/

inductive Language where
  | ENGLISH
  | TURKISH
deriving DecidableEq

def strs (l : List String) : List (List Char) := l.map String.toList

def TURKISH_CHARS : List Char := ['ç', 'ğ', 'ı', 'ö', 'ş', 'ü']

def TURKISH_KEYWORDS : List (List Char) := strs
  [ "hakkında", "nedir", "kimdir", "nasıl", "merhaba", "teşekkür", "iletişim", "mesaj", "gönder",
    "anlat", "söyle", "nerede", "ne zaman", "hangi", "proje", "projeler", "deneyim", "eğitim",
    "çalışma", "iş", "üniversite", "okul", "mezun", "değil", "yok", "var", "olan", "yapan",
    "merhabalar", "selam", "günaydın", "teşekkürler", "sağol", "kariyer", "bilgi", "selamlar",
    "anladım", "bilmiyorum", "istiyorum", "isterim", "ve", "bir", "bu", "şu", "o", "ben", "sen",
    "ile", "için", "ama", "fakat", "lakin", "çünkü", "ki", "da", "de", "ta", "te", "neler", "yap" ]

def ENGLISH_KEYWORDS : List (List Char) := strs
  [ "hello", "hi", "what", "who", "when", "where", "why", "how", "about", "thank", "thanks",
    "tell", "show", "project", "experience", "work", "education", "university", "job", "i", "you",
    "know", "dont", "don\x27t", "want", "need", "can", "could", "would", "should", "the", "and",
    "with", "for", "but", "because", "that", "this", "they", "we", "he", "she", "it", "my", "your" ]

def TURKISH_PHRASES : List (List Char) := strs
  [ "bilmiyorum", "istiyorum", "yapabilir", "söyleyebilir", "eder misin", "var mı" ]

def ENGLISH_PHRASES : List (List Char) := strs
  [ "i dont", "i don\x27t", "i want", "i need", "i can", "i would", "could you", "can you" ]

def TURKISH_GREETINGS : List (List Char) := strs
  [ "selam", "merhaba", "merhabalar", "selamlar", "günaydın", "iyi günler", "meraba" ]

def ENGLISH_GREETINGS : List (List Char) := strs
  [ "hello", "hi", "hey", "greetings", "good morning", "good day" ]

/-- `LanguageDetector.detect_from_text` (src/app.py, lines 767-809). -/
def detect_from_text (text : List Char) : Language :=
  if text = [] then .ENGLISH
  else
    let tl := pyStripL (pyLowerL text)
    if tl.length ≤ 3 ∧ (tl = "hi".toList ∨ tl = "hey".toList) then .ENGLISH
    else if tl.length ≤ 3 ∧ (tl = "selam".toList ∨ tl = "mrb".toList) then .TURKISH
    else if tl ∈ TURKISH_GREETINGS then .TURKISH
    else if tl ∈ ENGLISH_GREETINGS then .ENGLISH
    else if TURKISH_CHARS.any (fun ch => tl.contains ch) then .TURKISH
    else if ENGLISH_PHRASES.any (fun p => hasSub p tl) then .ENGLISH
    else if TURKISH_PHRASES.any (fun p => hasSub p tl) then .TURKISH
    else
      let words := (tl.splitOnP isPySpace).filter (fun w => w ≠ [])
      let turkish_score := 2 * TURKISH_KEYWORDS.countP (fun k => words.contains k)
      let english_score := ENGLISH_KEYWORDS.countP (fun k => words.contains k)
      if turkish_score = 0 ∧ english_score = 0 then .ENGLISH
      else if english_score < turkish_score then .TURKISH
      else .ENGLISH

lemma mem_dropWhile_of_mem {α : Type} {p : α → Bool} {c : α} :
    ∀ {l : List α}, c ∈ l → p c = false → c ∈ l.dropWhile p
  | [], h, _ => absurd h (List.not_mem_nil c)
  | x :: xs, h, hpc => by
    by_cases hx : p x
    · rw [List.dropWhile_cons_of_pos hx]
      rcases List.mem_cons.mp h with rfl | hmem
      · rw [hpc] at hx; exact absurd hx (by simp)
      · exact mem_dropWhile_of_mem hmem hpc
    · rw [List.dropWhile_cons_of_neg hx]
      exact h

lemma mem_pyStripL_of_mem {c : Char} {l : List Char} (h : c ∈ l)
    (hsp : isPySpace c = false) : c ∈ pyStripL l := by
  unfold pyStripL
  rw [List.mem_reverse]
  exact mem_dropWhile_of_mem (by rw [List.mem_reverse]; exact mem_dropWhile_of_mem h hsp) hsp

lemma mem_pyLowerL_of_fixed {c : Char} {l : List Char} (h : c ∈ l)
    (hfix : pyLowerChar c = [c]) : c ∈ pyLowerL l := by
  unfold pyLowerL
  rw [List.mem_flatten]
  exact ⟨pyLowerChar c, List.mem_map_of_mem pyLowerChar h, by rw [hfix]; exact List.mem_singleton.mpr rfl⟩

lemma turkish_char_lower_fixed {c : Char} (h : c ∈ TURKISH_CHARS) :
    pyLowerChar c = [c] := by
  fin_cases h <;> decide

lemma turkish_char_not_space {c : Char} (h : c ∈ TURKISH_CHARS) :
    isPySpace c = false := by
  fin_cases h <;> decide

lemma turkish_char_not_in_english_greeting {c : Char} (hturk : c ∈ TURKISH_CHARS)
    {w : List Char} (hw : w ∈ ENGLISH_GREETINGS) : c ∉ w := by
  fin_cases hw <;> fin_cases hturk <;> decide

/-! ## Embedding cache (src/app.py, `EmbeddingCache`, lines 634-687)

The three cache artifacts (embeddings pickle, chunks pickle, info JSON)
are modelled as the `CacheStore` state: `none` means the file is missing;
a present pickle either deserializes to a value of the expected type
(`ok`), to a value of the wrong type (`wrongType`, rejected by the
`isinstance` checks), or fails to load (`corrupt`, the exception path).
`AppConstants.EMBEDDING_MODEL` is `"models/text-embedding-004"`
(src/app.py, line 357). The current MD5 hash of the CV file
(`_get_file_hash`) is an input of the model. -/

def EMBEDDING_MODEL : String := "models/text-embedding-004"

structure CacheInfo where
  cv_file_path : Option String
  cv_file_hash : Option String
  chunks_count : Option Nat
  embedding_model : Option String
deriving DecidableEq

inductive PickledChunks where
  | ok (chunks : List String)
  | wrongType
  | corrupt
deriving DecidableEq

inductive PickledEmbeddings where
  | ok (embeddings : List (List ℚ))
  | wrongType
  | corrupt
deriving DecidableEq

inductive InfoFile where
  | ok (info : CacheInfo)
  | unreadable
deriving DecidableEq

structure CacheStore where
  embeddingsFile : Option PickledEmbeddings
  chunksFile : Option PickledChunks
  infoFile : Option InfoFile
deriving DecidableEq

/-- `_get_cache_info`: `{}` (modelled `none`) when the info file is
missing or unparseable, the parsed record otherwise. -/
def get_cache_info (st : CacheStore) : Option CacheInfo :=
  match st.infoFile with
  | none => none
  | some .unreadable => none
  | some (.ok info) => some info

/-- `is_cache_valid(cv_file_path)` (src/app.py, lines 634-662):
all three files exist, the info record is readable and non-empty, and its
path, hash and embedding-model fields match the current state. -/
def is_cache_valid (st : CacheStore) (cv_file_path current_hash : String) : Bool :=
  if st.embeddingsFile.isSome ∧ st.chunksFile.isSome ∧ st.infoFile.isSome then
    match get_cache_info st with
    | none => false
    | some info =>
      if info.cv_file_path ≠ some cv_file_path then false
      else if info.cv_file_hash ≠ some current_hash then false
      else if info.embedding_model ≠ some EMBEDDING_MODEL then false
      else true
  else false

/-- `load_from_cache` (src/app.py, lines 664-687): unpickle both files
(any exception, wrong type, or a chunk/embedding length mismatch yields
`(None, None)`). -/
def load_from_cache (st : CacheStore) :
    Option (List String) × Option (List (List ℚ)) :=
  match st.chunksFile, st.embeddingsFile with
  | some (.ok chunks), some (.ok embeddings) =>
    if chunks.length = embeddings.length then (some chunks, some embeddings)
    else (none, none)
  | some _, some _ => (none, none)
  | _, _ => (none, none)

/-! ## Résumé chunking (src/app.py, `json_to_chunks`, lines 1048-1127)

The CV JSON is modelled by `CVData`; each record field that the chunking
code reads through `dict.get` is an `Option`. The six `ChunkBuilder`
static methods (src/app.py, lines 876-970) each render one item into one
string; they are modelled as an abstract `ChunkBuilder` record, since the
chunk-count structure of `json_to_chunks` does not depend on the rendered
text. The aggregate summary chunks and the award / language /
organization / reference chunks are built inline in `json_to_chunks` and
are transcribed below. -/

structure EduItem where
  institution : Option String
  degree : Option String
  program : Option String
  years : Option String
  year : Option String
deriving DecidableEq

structure ExpItem where
  title : Option String
  company : Option String
  duration : Option String
deriving DecidableEq

structure ProjItem where
  name : Option String
  technology : Option String
deriving DecidableEq

structure AwardItem where
  name : Option String
  organization : Option String
  description : Option String
deriving DecidableEq

structure OrgItem where
  name : Option String
  role : Option String
  duration : Option String
deriving DecidableEq

structure RefItem where
  name : Option String
  title : Option String
  organization : Option String
deriving DecidableEq

structure CVData where
  links : List (String × String)
  education : List EduItem
  experience : List ExpItem
  skills : List (String × List String)
  projects : List ProjItem
  awards : List AwardItem
  languages : List (String × String)
  organizations : List OrgItem
  references : List RefItem
deriving DecidableEq

structure ChunkBuilder where
  build_basic_info : CVData → String
  build_links_chunk : List (String × String) → String
  build_education_chunk : EduItem → String
  build_experience_chunk : ExpItem → String
  build_project_chunk : ProjItem → String
  build_skills_chunk : List (String × List String) → String

/-- The inline education summary chunk (src/app.py, lines 1065-1071). -/
def educationSummary (education : List EduItem) : String :=
  "Complete Education Background / Tüm Eğitim Geçmişi:\n"
    ++ String.join (education.enum.map (fun ie =>
        let degree_info := pyOr ie.2.degree (ie.2.program.getD "Program")
        let year_info := pyOr ie.2.years (ie.2.year.getD "")
        toString (ie.1 + 1) ++ ". " ++ degree_info ++ " - "
          ++ ie.2.institution.getD "N/A" ++ " (" ++ year_info ++ ")\n"))
    ++ "\nKeywords: complete education, tüm eğitim, educational background, eğitim geçmişi"

/-- The inline experience summary chunk (src/app.py, lines 1079-1082). -/
def experienceSummary (experience : List ExpItem) : String :=
  "All Work Experience / Tüm İş Deneyimleri:\n"
    ++ String.join (experience.map (fun exp =>
        "- " ++ exp.title.getD "N/A" ++ " at " ++ exp.company.getD "N/A"
          ++ " (" ++ exp.duration.getD "N/A" ++ ")\n"))

/-- The inline projects summary chunk (src/app.py, lines 1094-1097). -/
def projectsSummary (projects : List ProjItem) : String :=
  "All Projects / Tüm Projeler:\n"
    ++ String.join (projects.map (fun p =>
        "- " ++ p.name.getD "N/A" ++ " (" ++ p.technology.getD "N/A" ++ ")\n"))

/-- The inline per-award chunk (src/app.py, lines 1100-1104). -/
def awardChunk (a : AwardItem) : String :=
  "Award: " ++ a.name.getD "N/A" ++ "\n"
    ++ "Organization: " ++ a.organization.getD "N/A" ++ "\n"
    ++ "Description: " ++ a.description.getD "N/A"

/-- The inline languages chunk (src/app.py, lines 1107-1111). -/
def languagesChunk (languages : List (String × String)) : String :=
  "Languages:\n"
    ++ String.join (languages.map (fun kv => "- " ++ kv.1 ++ ": " ++ kv.2 ++ "\n"))

/-- The inline per-organization chunk (src/app.py, lines 1114-1118). -/
def organizationChunk (o : OrgItem) : String :=
  "Organization: " ++ o.name.getD "N/A" ++ "\n"
    ++ "Role: " ++ o.role.getD "N/A" ++ "\n"
    ++ "Duration: " ++ o.duration.getD "N/A"

/-- The inline references chunk (src/app.py, lines 1121-1125); note that
the per-reference line carries no trailing newline. -/
def referencesChunk (references : List RefItem) : String :=
  "References:\n"
    ++ String.join (references.map (fun r =>
        "- " ++ r.name.getD "N/A" ++ " (" ++ r.title.getD "N/A"
          ++ " at " ++ r.organization.getD "N/A" ++ ")"))

/-- `json_to_chunks` (src/app.py, lines 1048-1127). Python's walrus-guard
`if section := data.get(...)` skips a section entirely when the list or
dict is empty; awards and organizations are iterated without a guard and
without any aggregate summary chunk. -/
def json_to_chunks (cb : ChunkBuilder) (data : CVData) : List String :=
  [cb.build_basic_info data]
    ++ (if data.links = [] then [] else [cb.build_links_chunk data.links])
    ++ (if data.education = [] then []
        else data.education.map cb.build_education_chunk ++ [educationSummary data.education])
    ++ (if data.experience = [] then []
        else data.experience.map cb.build_experience_chunk ++ [experienceSummary data.experience])
    ++ (if data.skills = [] then [] else [cb.build_skills_chunk data.skills])
    ++ (if data.projects = [] then []
        else data.projects.map cb.build_project_chunk ++ [projectsSummary data.projects])
    ++ data.awards.map awardChunk
    ++ (if data.languages = [] then [] else [languagesChunk data.languages])
    ++ data.organizations.map organizationChunk
    ++ (if data.references = [] then [] else [referencesChunk data.references])

/-! ## Similarity search (src/app.py, `search_similar_chunks`, lines 1281-1319)

Embedding vectors are lists of reals; `np.dot` and `np.linalg.norm`
become `dotL` and `pyNorm`. The guard `query_norm > 0 and chunk_norm > 0`
and the 0 default are kept exactly as in the source. Python's
`list.sort(key=..., reverse=True)` is a stable descending sort, modelled
by insertion sort `sortDesc` that inserts each earlier entry before any
later entry of equal score. -/

def dotL : List ℝ → List ℝ → ℝ
  | [], _ => 0
  | _ :: _, [] => 0
  | x :: xs, y :: ys => x * y + dotL xs ys

lemma dotL_self_nonneg (v : List ℝ) : 0 ≤ dotL v v := by
  induction v with
  | nil => simp [dotL]
  | cons x xs ih => simpa [dotL] using add_nonneg (mul_self_nonneg x) ih

lemma dotL_nil_right (v : List ℝ) : dotL v [] = 0 := by
  cases v <;> rfl

/-- Cauchy-Schwarz for `dotL`, squared form. -/
lemma dotL_sq_le (a b : List ℝ) : (dotL a b) ^ 2 ≤ dotL a a * dotL b b := by
  induction a generalizing b with
  | nil => simp [dotL]
  | cons x xs ih =>
    cases b with
    | nil => simp [dotL, dotL_nil_right]
    | cons y ys =>
      have hA : 0 ≤ dotL xs xs := dotL_self_nonneg xs
      have hB : 0 ≤ dotL ys ys := dotL_self_nonneg ys
      have hd : (dotL xs ys) ^ 2 ≤ dotL xs xs * dotL ys ys := ih ys
      set A := dotL xs xs with hAdef
      set B := dotL ys ys with hBdef
      set d := dotL xs ys with hddef
      have hR : 0 ≤ x * x * B + A * (y * y) :=
        add_nonneg (mul_nonneg (mul_self_nonneg x) hB)
          (mul_nonneg hA (mul_self_nonneg y))
      have h1 : (2 * (x * y) * d) ^ 2 ≤ (x * x * B + A * (y * y)) ^ 2 := by
        nlinarith [sq_nonneg (x * x * B - A * (y * y)), mul_self_nonneg (x * y), hd,
          mul_nonneg (mul_self_nonneg (x * y)) (mul_nonneg hA hB)]
      have h2 : 2 * (x * y) * d ≤ x * x * B + A * (y * y) := by
        rcases eq_or_lt_of_le hR with hR0 | hRpos
        · have : (2 * (x * y) * d) ^ 2 ≤ 0 := by rw [← hR0] at h1; simpa using h1
          nlinarith [this]
        · nlinarith [h1, hRpos]
      show (x * y + d) ^ 2 ≤ (x * x + A) * (y * y + B)
      nlinarith [h2, hd]

/-- `np.linalg.norm` of a vector: the square root of its dot with itself. -/
noncomputable def pyNorm (v : List ℝ) : ℝ := Real.sqrt (dotL v v)

/-- The pre-boost cosine similarity of `search_similar_chunks`
(src/app.py, lines 1301-1306): the division is performed only when both
norms are strictly positive, otherwise the similarity is 0. -/
noncomputable def cosineSimilarity (q c : List ℝ) : ℝ :=
  if 0 < pyNorm q ∧ 0 < pyNorm c then dotL q c / (pyNorm q * pyNorm c) else 0

structure SearchEntry where
  text : String
  similarity : ℝ
  index : ℕ

/-- One step of the stable descending sort: walk past strictly larger
scores, insert before the first entry of smaller-or-equal score (so an
earlier entry precedes any equal-scored later entry). -/
noncomputable def insertDesc (x : SearchEntry) : List SearchEntry → List SearchEntry
  | [] => [x]
  | y :: ys =>
    if x.similarity < y.similarity then y :: insertDesc x ys else x :: y :: ys

/-- Stable descending sort by `similarity`, modelling Python's stable
`list.sort(key=lambda e: e["similarity"], reverse=True)`. -/
noncomputable def sortDesc : List SearchEntry → List SearchEntry
  | [] => []
  | x :: xs => insertDesc x (sortDesc xs)

/-- The unsorted per-chunk entry list of `search_similar_chunks`
(src/app.py, lines 1299-1315): cosine similarity plus keyword boost, with
the original insertion index recorded in `index`. -/
noncomputable def mkSimilarities (query : String) (query_vec : List ℝ)
    (chunkData : List (String × List ℝ)) : List SearchEntry :=
  chunkData.enum.map (fun ic =>
    { text := ic.2.1
      similarity := cosineSimilarity query_vec ic.2.2
        + ((calculate_keyword_boost query ic.2.1 : ℚ) : ℝ)
      index := ic.1 })

/-- `search_similar_chunks` after the availability guards: score every
chunk, sort descending, return the first `top_k`. -/
noncomputable def search_similar_chunks (query : String) (query_vec : List ℝ)
    (chunkData : List (String × List ℝ)) (top_k : ℕ) : List SearchEntry :=
  (sortDesc (mkSimilarities query query_vec chunkData)).take top_k

lemma mem_insertDesc {x a : SearchEntry} :
    ∀ {m : List SearchEntry}, a ∈ insertDesc x m → a = x ∨ a ∈ m
  | [], h => by simpa [insertDesc] using (List.mem_singleton.mp h)
  | y :: ys, h => by
    rw [insertDesc] at h
    split_ifs at h with hlt
    · rcases List.mem_cons.mp h with rfl | h2
      · exact Or.inr (List.mem_cons_self _ _)
      · rcases mem_insertDesc h2 with rfl | h3
        · exact Or.inl rfl
        · exact Or.inr (List.mem_cons_of_mem _ h3)
    · rcases List.mem_cons.mp h with rfl | h2
      · exact Or.inl rfl
      · exact Or.inr h2

lemma insertDesc_sorted {x : SearchEntry} :
    ∀ {m : List SearchEntry},
      List.Sorted (fun a b => b.similarity ≤ a.similarity) m →
      List.Sorted (fun a b => b.similarity ≤ a.similarity) (insertDesc x m)
  | [], _ => by simp [insertDesc]
  | y :: ys, hm => by
    rw [insertDesc]
    rcases List.sorted_cons.mp hm with ⟨hy, hys⟩
    split_ifs with hlt
    · refine List.sorted_cons.mpr ⟨?_, insertDesc_sorted hys⟩
      intro a ha
      rcases mem_insertDesc ha with rfl | h2
      · exact le_of_lt hlt
      · exact hy a h2
    · refine List.sorted_cons.mpr ⟨?_, hm⟩
      intro a ha
      rcases List.mem_cons.mp ha with rfl | h2
      · exact le_of_not_lt hlt
      · exact le_trans (hy a h2) (le_of_not_lt hlt)

lemma sortDesc_sorted (l : List SearchEntry) :
    List.Sorted (fun a b => b.similarity ≤ a.similarity) (sortDesc l) := by
  induction l with
  | nil => simp [sortDesc]
  | cons x xs ih => exact insertDesc_sorted ih

lemma insertDesc_perm (x : SearchEntry) :
    ∀ (m : List SearchEntry), List.Perm (insertDesc x m) (x :: m)
  | [] => by simp [insertDesc]
  | y :: ys => by
    rw [insertDesc]
    split_ifs with hlt
    · exact List.Perm.trans (List.Perm.cons y (insertDesc_perm x ys))
        (List.Perm.swap x y ys)
    · exact List.Perm.refl _

lemma sortDesc_perm (l : List SearchEntry) : List.Perm (sortDesc l) l := by
  induction l with
  | nil => simp [sortDesc]
  | cons x xs ih =>
    exact List.Perm.trans (insertDesc_perm x (sortDesc xs)) (List.Perm.cons x ih)

lemma filter_insertDesc (x : SearchEntry) (s : ℝ) :
    ∀ (m : List SearchEntry),
      (insertDesc x m).filter (fun e => decide (e.similarity = s))
        = if x.similarity = s
          then x :: m.filter (fun e => decide (e.similarity = s))
          else m.filter (fun e => decide (e.similarity = s))
  | [] => by
    rw [insertDesc]
    split_ifs with hx <;> simp [List.filter, hx]
  | y :: ys => by
    rw [insertDesc]
    by_cases hlt : x.similarity < y.similarity
    · rw [if_pos hlt]
      by_cases hx : x.similarity = s
      · have hyne : ¬ (y.similarity = s) := by
          intro h
          rw [hx] at hlt
          rw [h] at hlt
          exact lt_irrefl s hlt
        simp [List.filter_cons, filter_insertDesc x s ys, hx, hyne]
      · simp [List.filter_cons, filter_insertDesc x s ys, hx]
    · rw [if_neg hlt]
      by_cases hx : x.similarity = s <;> simp [List.filter_cons, hx]

lemma filter_sortDesc (l : List SearchEntry) (s : ℝ) :
    (sortDesc l).filter (fun e => decide (e.similarity = s))
      = l.filter (fun e => decide (e.similarity = s)) := by
  induction l with
  | nil => rfl
  | cons x xs ih =>
    rw [sortDesc, filter_insertDesc, List.filter_cons]
    by_cases hx : x.similarity = s
    · simp [hx, ih]
    · simp [hx, ih]


/-! ## Job compatibility analyzer
(src/tools/job_compatibility_tool.py)

`AnalysisConstants.MAX_RETRIES = 3` and
`AnalysisConstants.MIN_REPORT_LENGTH = 500` (lines 30-31). The LLM calls
of the pipeline are modelled as explicit inputs: the extraction result,
the retrieved CV context, the compatibility analysis, and the outcome of
each report-generation attempt (an exception or an optional response
text). `JobRequirements` keeps the one extracted field the embedded
paths read, `position_title`; the `CompatibilityAnalysis` fields are the
ones the fallback template reads through `dict.get` with their Python
defaults as values. -/

def MIN_REPORT_LENGTH : ℕ := 500

def MAX_RETRIES : ℕ := 3

structure JobRequirements where
  position_title : String
deriving DecidableEq

structure SkillAnalysis where
  required_skills_match : ℤ
  matched_required_skills : List String
  missing_required_skills : List String
  additional_relevant_skills : List String
deriving DecidableEq

structure ExperienceAnalysis where
  meets_experience_requirement : Bool
  relevant_experience_years : ℤ
  relevant_experiences : List String
  experience_quality_score : ℤ
deriving DecidableEq

structure EducationAnalysis where
  meets_education_requirement : Bool
  education_relevance_score : ℤ
  relevant_education : List String
deriving DecidableEq

structure ProjectAnalysis where
  relevant_projects : List String
  project_relevance_score : ℤ
deriving DecidableEq

structure CompatibilityAnalysis where
  overall_compatibility_score : ℤ
  skill_analysis : SkillAnalysis
  experience_analysis : ExperienceAnalysis
  education_analysis : EducationAnalysis
  project_analysis : ProjectAnalysis
  strengths : List String
  weaknesses : List String
  recommendations : List String
  error : Option String
deriving DecidableEq

/-- The required-section keyword lists of
`_validate_report_completeness` (lines 660-669). -/
def required_sections_tr : List String :=
  [ "özet", "yönetici özeti", "teknik beceriler", "beceriler",
    "deneyim", "eğitim", "öneri", "tavsiye", "güçlü", "proje" ]

def required_sections_en : List String :=
  [ "executive summary", "technical skills", "experience",
    "education", "recommendation", "strengths", "project" ]

/-- `_validate_report_completeness(report_text, language)`
(lines 645-675): non-empty, at least `MIN_REPORT_LENGTH` characters after
stripping, and at least 4 required section keywords present. -/
def validate_report_completeness (report_text language : String) : Bool :=
  if report_text = "" ∨ (pyStripS report_text).length < MIN_REPORT_LENGTH then false
  else
    let required_sections :=
      if language = "tr" then required_sections_tr else required_sections_en
    4 ≤ required_sections.countP
      (fun sec => hasSubS (pyLower sec) (pyLower report_text))

/-- Python `chr(10).join(lines) or default`: the joined string, or the
default when the join is empty. -/
def joinOr (lines : List String) (dflt : String) : String :=
  let j := String.intercalate "\n" lines
  if j = "" then dflt else j

/-- `_generate_fallback_report`, Turkish branch (lines 946-1017),
transcribed literally from the f-string template. -/
def trFallbackReport (candidate_name position_title : String)
    (ca : CompatibilityAnalysis) : String :=
  let overall := ca.overall_compatibility_score
  "# 📋 "
    ++ candidate_name
    ++ " - "
    ++ position_title
    ++ " Uyum Raporu\n\n## ⭐ Genel Değerlendirme\n**Genel Uyum Skoru:** "
    ++ (toString overall)
    ++ "% "
    ++ (if overall ≥ 80 then "🌟🌟🌟🌟🌟" else if overall ≥ 60 then "🌟🌟🌟🌟" else if overall ≥ 40 then "🌟🌟🌟" else "🌟🌟")
    ++ "\n\nBu adayın söz konusu pozisyon için genel uyum düzeyi **"
    ++ (toString overall)
    ++ "%** olarak değerlendirilmiştir. Bu rapor, aday profilinin detaylı analizi sonucunda oluşturulmuştur.\n\n### 🎯 Öne Çıkan Noktalar:\n• **Teknik Beceri Uyumu:** "
    ++ (toString ca.skill_analysis.required_skills_match)
    ++ "%\n• **Deneyim Kalitesi:** "
    ++ (toString ca.experience_analysis.experience_quality_score)
    ++ "%\n• **Eğitim Uygunluğu:** "
    ++ (if ca.education_analysis.meets_education_requirement then "✅ Uygun" else "⚠️ Kısmen Uygun")
    ++ "\n\n## 🔧 Teknik Beceriler Analizi\n**Gerekli Becerilerin Karşılanma Oranı:** "
    ++ (toString ca.skill_analysis.required_skills_match)
    ++ "%\n\n### ✅ Eşleşen Gerekli Beceriler:\n"
    ++ (joinOr (ca.skill_analysis.matched_required_skills.map (fun skill => "• **" ++ skill ++ "** - Doğrulanmış yetkinlik")) "• Detaylar analiz edilmekte")
    ++ "\n\n### ❌ Eksik Beceriler:\n"
    ++ (joinOr (ca.skill_analysis.missing_required_skills.map (fun skill => "• **" ++ skill ++ "** - Geliştirilmesi önerilen alan")) "• Büyük beceri eksikliği tespit edilmedi")
    ++ "\n\n### 🌟 Ek Değerli Beceriler:\n"
    ++ (joinOr (ca.skill_analysis.additional_relevant_skills.map (fun skill => "• **" ++ skill ++ "** - Pozisyona ek değer katacak")) "• Ek beceriler değerlendirilmekte")
    ++ "\n\n## 💼 Profesyonel Deneyim Değerlendirmesi\n**Deneyim Gereksinimini Karşılama:** "
    ++ (if ca.experience_analysis.meets_experience_requirement then "✅ Evet" else "❌ Hayır")
    ++ "\n\n**Tahmini İlgili Deneyim:** "
    ++ (toString ca.experience_analysis.relevant_experience_years)
    ++ " yıl\n\n### 🏆 İlgili Deneyimler:\n"
    ++ (joinOr (ca.experience_analysis.relevant_experiences.map (fun exp => "• " ++ exp)) "• Deneyim detayları analiz edilmekte")
    ++ "\n\n**Deneyim Kalite Skoru:** "
    ++ (toString ca.experience_analysis.experience_quality_score)
    ++ "/100\n\n## 🎓 Eğitim ve Sertifikasyonlar\n**Eğitim Gereksinimini Karşılama:** "
    ++ (if ca.education_analysis.meets_education_requirement then "✅ Evet" else "❌ Hayır")
    ++ "\n\n**Eğitim İlgililik Skoru:** "
    ++ (toString ca.education_analysis.education_relevance_score)
    ++ "/100\n\n### 📚 İlgili Eğitim Geçmişi:\n"
    ++ (joinOr (ca.education_analysis.relevant_education.map (fun edu => "• " ++ edu)) "• Eğitim detayları değerlendirilmekte")
    ++ "\n\n## 🚀 Proje Portföyü Analizi\n**Proje İlgililik Skoru:** "
    ++ (toString ca.project_analysis.project_relevance_score)
    ++ "/100\n\n### 💡 İlgili Projeler:\n"
    ++ (joinOr (ca.project_analysis.relevant_projects.map (fun proj => "• " ++ proj)) "• Proje portföyü değerlendirilmekte")
    ++ "\n\n## ⭐ Bu Pozisyon İçin Güçlü Yönler\n"
    ++ (joinOr (ca.strengths.map (fun strength => "🌟 **" ++ strength ++ "**")) "🌟 Güçlü yönler detaylandırılmakte")
    ++ "\n\n## 📈 Gelişim Fırsatları\n"
    ++ (joinOr (ca.weaknesses.map (fun weakness => "⚠️ **" ++ weakness ++ "**")) "⚠️ Gelişim alanları belirlenmekte")
    ++ "\n\n## 💡 Öneriler\n"
    ++ (joinOr (ca.recommendations.map (fun rec => "💡 " ++ rec)) "💡 Detaylı öneriler hazırlanmakta")
    ++ "\n\n## 🎯 Final Önerisi\n"
    ++ (if overall ≥ 80 then "🌟 **Güçlü Şekilde Önerilir** - Yüksek uyum gösteren, pozisyona mükemmel uygun aday" else if overall ≥ 60 then "✅ **Önerilir** - İyi uyum gösteren, değerlendirilmeye değer aday" else if overall ≥ 40 then "⚠️ **Koşullu Öneri** - Belirli alanlarda gelişim gerektiren aday" else "❌ **Önerilmez** - Bu pozisyon için uygun olmayan aday profili")
    ++ "\n\n### 📊 Risk Değerlendirmesi:\n• **Teknik Risk:** "
    ++ (if ca.skill_analysis.required_skills_match ≥ 70 then "Düşük" else if ca.skill_analysis.required_skills_match ≥ 50 then "Orta" else "Yüksek")
    ++ "\n• **Deneyim Riski:** "
    ++ (if ca.experience_analysis.experience_quality_score ≥ 70 then "Düşük" else if ca.experience_analysis.experience_quality_score ≥ 50 then "Orta" else "Yüksek")
    ++ "\n\n---\n*Bu rapor AI analizi ile otomatik olarak oluşturulmuştur. Detaylı değerlendirme için insan kaynakları uzmanı ile görüşme önerilir.*"

/-- `_generate_fallback_report`, English branch (lines 1019-1090),
transcribed literally from the f-string template. -/
def enFallbackReport (candidate_name position_title : String)
    (ca : CompatibilityAnalysis) : String :=
  let overall := ca.overall_compatibility_score
  "# 📋 "
    ++ candidate_name
    ++ " - "
    ++ position_title
    ++ " Compatibility Report\n\n## ⭐ Executive Summary\n**Overall Compatibility Score:** "
    ++ (toString overall)
    ++ "% "
    ++ (if overall ≥ 80 then "🌟🌟🌟🌟🌟" else if overall ≥ 60 then "🌟🌟🌟🌟" else if overall ≥ 40 then "🌟🌟🌟" else "🌟🌟")
    ++ "\n\nThis candidate shows a **"
    ++ (toString overall)
    ++ "%** overall compatibility for the specified position. This report is based on comprehensive analysis of the candidate\x27s profile against job requirements.\n\n### 🎯 Key Highlights:\n• **Technical Skills Match:** "
    ++ (toString ca.skill_analysis.required_skills_match)
    ++ "%\n• **Experience Quality:** "
    ++ (toString ca.experience_analysis.experience_quality_score)
    ++ "%\n• **Education Fit:** "
    ++ (if ca.education_analysis.meets_education_requirement then "✅ Suitable" else "⚠️ Partially Suitable")
    ++ "\n\n## 🔧 Technical Skills Assessment\n**Required Skills Coverage:** "
    ++ (toString ca.skill_analysis.required_skills_match)
    ++ "%\n\n### ✅ Matched Required Skills:\n"
    ++ (joinOr (ca.skill_analysis.matched_required_skills.map (fun skill => "• **" ++ skill ++ "** - Verified competency")) "• Skills details under analysis")
    ++ "\n\n### ❌ Missing Skills:\n"
    ++ (joinOr (ca.skill_analysis.missing_required_skills.map (fun skill => "• **" ++ skill ++ "** - Recommended development area")) "• No major skill gaps identified")
    ++ "\n\n### 🌟 Additional Relevant Skills:\n"
    ++ (joinOr (ca.skill_analysis.additional_relevant_skills.map (fun skill => "• **" ++ skill ++ "** - Adds value to the role")) "• Additional skills being evaluated")
    ++ "\n\n## 💼 Professional Experience Evaluation\n**Meets Experience Requirement:** "
    ++ (if ca.experience_analysis.meets_experience_requirement then "✅ Yes" else "❌ No")
    ++ "\n\n**Estimated Relevant Experience:** "
    ++ (toString ca.experience_analysis.relevant_experience_years)
    ++ " years\n\n### 🏆 Relevant Experiences:\n"
    ++ (joinOr (ca.experience_analysis.relevant_experiences.map (fun exp => "• " ++ exp)) "• Experience details under analysis")
    ++ "\n\n**Experience Quality Score:** "
    ++ (toString ca.experience_analysis.experience_quality_score)
    ++ "/100\n\n## 🎓 Education & Certifications\n**Meets Education Requirement:** "
    ++ (if ca.education_analysis.meets_education_requirement then "✅ Yes" else "❌ No")
    ++ "\n\n**Education Relevance Score:** "
    ++ (toString ca.education_analysis.education_relevance_score)
    ++ "/100\n\n### 📚 Relevant Educational Background:\n"
    ++ (joinOr (ca.education_analysis.relevant_education.map (fun edu => "• " ++ edu)) "• Educational details being evaluated")
    ++ "\n\n## 🚀 Project Portfolio Analysis\n**Project Relevance Score:** "
    ++ (toString ca.project_analysis.project_relevance_score)
    ++ "/100\n\n### 💡 Relevant Projects:\n"
    ++ (joinOr (ca.project_analysis.relevant_projects.map (fun proj => "• " ++ proj)) "• Project portfolio under evaluation")
    ++ "\n\n## ⭐ Key Strengths for This Role\n"
    ++ (joinOr (ca.strengths.map (fun strength => "🌟 **" ++ strength ++ "**")) "🌟 Strengths being detailed")
    ++ "\n\n## 📈 Development Opportunities\n"
    ++ (joinOr (ca.weaknesses.map (fun weakness => "⚠️ **" ++ weakness ++ "**")) "⚠️ Development areas being identified")
    ++ "\n\n## 💡 Recommendations\n"
    ++ (joinOr (ca.recommendations.map (fun rec => "💡 " ++ rec)) "💡 Detailed recommendations being prepared")
    ++ "\n\n## 🎯 Final Recommendation\n"
    ++ (if overall ≥ 80 then "🌟 **Highly Recommended** - Excellent match showing high compatibility for the position" else if overall ≥ 60 then "✅ **Recommended** - Good match worth considering for the role" else if overall ≥ 40 then "⚠️ **Conditional Recommendation** - Candidate requiring development in certain areas" else "❌ **Not Recommended** - Candidate profile not suitable for this position")
    ++ "\n\n### 📊 Risk Assessment:\n• **Technical Risk:** "
    ++ (if ca.skill_analysis.required_skills_match ≥ 70 then "Low" else if ca.skill_analysis.required_skills_match ≥ 50 then "Medium" else "High")
    ++ "\n• **Experience Risk:** "
    ++ (if ca.experience_analysis.experience_quality_score ≥ 70 then "Low" else if ca.experience_analysis.experience_quality_score ≥ 50 then "Medium" else "High")
    ++ "\n\n---\n*This report was automatically generated through AI analysis. For detailed evaluation, consultation with HR specialist is recommended.*"

/-- `_generate_fallback_report` (lines 920-1090): Python
`cv_data.get('name', ...)` and `position_title or ...` defaults, then the
language dispatch (`language == "tr"` picks the Turkish template, any
other language the English one). -/
def generate_fallback_report (cv_name : Option String) (jr : JobRequirements)
    (ca : CompatibilityAnalysis) (language : String) : String :=
  let candidate_name := cv_name.getD "Unknown Candidate"
  let position_title := pyOr (some jr.position_title) "Unknown Position"
  if language = "tr" then trFallbackReport candidate_name position_title ca
  else enFallbackReport candidate_name position_title ca

set_option maxRecDepth 10000 in
lemma trFallbackReport_length (candidate_name position_title : String)
    (ca : CompatibilityAnalysis) :
    500 ≤ (trFallbackReport candidate_name position_title ca).length := by
  simp only [trFallbackReport, String.length_append]
  have ht0 : ("%** olarak değerlendirilmiştir. Bu rapor, aday profilinin detaylı analizi sonucunda oluşturulmuştur.\n\n### 🎯 Öne Çıkan Noktalar:\n• **Teknik Beceri Uyumu:** " : String).length = 155 := by decide
  have ht1 : ("\n\n---\n*Bu rapor AI analizi ile otomatik olarak oluşturulmuştur. Detaylı değerlendirme için insan kaynakları uzmanı ile görüşme önerilir.*" : String).length = 137 := by decide
  have ht2 : ("\n\n## 💼 Profesyonel Deneyim Değerlendirmesi\n**Deneyim Gereksinimini Karşılama:** " : String).length = 80 := by decide
  have ht3 : ("\n\n## 🔧 Teknik Beceriler Analizi\n**Gerekli Becerilerin Karşılanma Oranı:** " : String).length = 74 := by decide
  have ht4 : ("/100\n\n## 🎓 Eğitim ve Sertifikasyonlar\n**Eğitim Gereksinimini Karşılama:** " : String).length = 74 := by decide
  have ht5 : (" Uyum Raporu\n\n## ⭐ Genel Değerlendirme\n**Genel Uyum Skoru:** " : String).length = 61 := by decide
  omega

set_option maxRecDepth 10000 in
lemma enFallbackReport_length (candidate_name position_title : String)
    (ca : CompatibilityAnalysis) :
    500 ≤ (enFallbackReport candidate_name position_title ca).length := by
  simp only [enFallbackReport, String.length_append]
  have he0 : ("%** overall compatibility for the specified position. This report is based on comprehensive analysis of the candidate\x27s profile against job requirements.\n\n### 🎯 Key Highlights:\n• **Technical Skills Match:** " : String).length = 207 := by decide
  have he1 : ("\n\n---\n*This report was automatically generated through AI analysis. For detailed evaluation, consultation with HR specialist is recommended.*" : String).length = 141 := by decide
  have he2 : (" Compatibility Report\n\n## ⭐ Executive Summary\n**Overall Compatibility Score:** " : String).length = 79 := by decide
  have he3 : ("\n\n## 💼 Professional Experience Evaluation\n**Meets Experience Requirement:** " : String).length = 76 := by decide
  have he4 : ("/100\n\n## 🎓 Education & Certifications\n**Meets Education Requirement:** " : String).length = 71 := by decide
  omega

lemma generate_fallback_report_length (cv_name : Option String)
    (jr : JobRequirements) (ca : CompatibilityAnalysis) (language : String) :
    500 ≤ (generate_fallback_report cv_name jr ca language).length := by
  unfold generate_fallback_report
  split_ifs
  · exact trFallbackReport_length _ _ _
  · exact enFallbackReport_length _ _ _

/-- The outcome of one `client.models.generate_content` call inside
`_generate_report_with_retry`: either the call raises, or it returns a
response whose `.text` is `None` or a string. -/
inductive AttemptOutcome where
  | raises (message : String)
  | returns (text : Option String)
deriving DecidableEq

/-- `_generate_report_with_retry` (lines 677-763) over the list of
attempt outcomes (one entry per loop iteration, `MAX_RETRIES` in total):
a valid complete response is returned as is; an incomplete or empty
response moves to the next attempt; an exception re-raises on the final
attempt (`attempt == max_retries - 1`) and is swallowed otherwise; when
the loop exhausts all attempts the deterministic fallback report is
returned. -/
def generate_report_with_retry (cv_name : Option String) (jr : JobRequirements)
    (ca : CompatibilityAnalysis) (language : String) :
    List AttemptOutcome → Except String String
  | [] => .ok (generate_fallback_report cv_name jr ca language)
  | [.raises e] => .error e
  | .raises _ :: o :: rest => generate_report_with_retry cv_name jr ca language (o :: rest)
  | .returns none :: rest => generate_report_with_retry cv_name jr ca language rest
  | .returns (some t) :: rest =>
    if t ≠ "" then
      if validate_report_completeness t language then .ok t
      else generate_report_with_retry cv_name jr ca language rest
    else generate_report_with_retry cv_name jr ca language rest

/-- The result dictionary of `generate_compatibility_report`
(lines 1144-1211): either an error record, or the success record whose
keys are `report_text`, `job_title`, `compatibility_score` and
`metadata` — there is no `company_name` key. -/
inductive ReportResult where
  | error (message error_type : String)
  | success (report_text job_title : String) (compatibility_score : ℤ)
deriving DecidableEq

/-- The model-call environment of one `generate_compatibility_report`
run: the extraction result, the retrieved CV context (empty string for a
falsy context), the compatibility analysis, and the report-generation
attempt outcomes. -/
structure ReportEnv where
  jobRequirements : JobRequirements
  cvContext : String
  analysis : CompatibilityAnalysis
  attempts : List AttemptOutcome
deriving DecidableEq

def errEmptyDescription (language : String) : String :=
  if language = "tr" then "❌ İş tanımı boş. Lütfen geçerli bir iş tanımı girin."
  else "❌ Job description is empty. Please provide a valid job description."

def errExtractionFailed (language : String) : String :=
  if language = "tr" then
    "❌ İş bilgileri çıkarılamadı. İş tanımının net gereksinimler içerdiğinden emin olun."
  else
    "❌ Could not extract job information. Please ensure the description contains clear requirements."

def errCvContextFailed (language : String) : String :=
  if language = "tr" then "❌ CV bilgileri alınamadı. Lütfen CV verilerinizi kontrol edin."
  else "❌ Could not retrieve CV information. Please check your CV data."

def errAnalysisFailed (language : String) : String :=
  if language = "tr" then "❌ Uyum analizi hatası: " else "❌ Error in compatibility analysis: "

def errUnexpected (language : String) : String :=
  if language = "tr" then "❌ Beklenmeyen hata: " else "❌ Unexpected error: "

/-- `generate_compatibility_report(job_description, language)`
(lines 1092-1211). The four early error returns mirror the source; the
outer `except` turns an exception propagated out of
`_generate_report_with_retry` into the `unexpected_error` record. -/
def generate_compatibility_report (cv_name : Option String) (env : ReportEnv)
    (job_description language : String) : ReportResult :=
  if job_description = "" ∨ pyStripS job_description = "" then
    .error (errEmptyDescription language) "validation"
  else if env.jobRequirements.position_title = "" then
    .error (errExtractionFailed language) "extraction"
  else if env.cvContext = "" then
    .error (errCvContextFailed language) "cv_context"
  else if env.analysis.error.isSome ∧ env.analysis.overall_compatibility_score = 0 then
    .error (errAnalysisFailed language ++ (env.analysis.error.getD "")) "analysis"
  else
    match generate_report_with_retry cv_name env.jobRequirements env.analysis
        language env.attempts with
    | .error e => .error (errUnexpected language ++ e) "system"
    | .ok report_text =>
      .success report_text env.jobRequirements.position_title
        env.analysis.overall_compatibility_score

/-- An attempt that fails without raising: the response text is `None`,
empty, or fails the completeness validation. -/
def attemptFailsQuietly (language : String) : AttemptOutcome → Bool
  | .raises _ => false
  | .returns none => true
  | .returns (some t) => t = "" || !(validate_report_completeness t language)

lemma retry_all_quiet_fail (cv_name : Option String) (jr : JobRequirements)
    (ca : CompatibilityAnalysis) (language : String) :
    ∀ (attempts : List AttemptOutcome),
      attempts.all (attemptFailsQuietly language) = true →
      generate_report_with_retry cv_name jr ca language attempts
        = .ok (generate_fallback_report cv_name jr ca language)
  | [], _ => rfl
  | .raises e :: rest, h => by
    exfalso
    simp only [List.all_cons, Bool.and_eq_true] at h
    simpa [attemptFailsQuietly] using h.1
  | .returns none :: rest, h => by
    simp only [List.all_cons, Bool.and_eq_true] at h
    rw [generate_report_with_retry]
    exact retry_all_quiet_fail cv_name jr ca language rest h.2
  | .returns (some t) :: rest, h => by
    simp only [List.all_cons, Bool.and_eq_true] at h
    have ht : t = "" ∨ validate_report_completeness t language = false := by
      have h1 := h.1
      simp only [attemptFailsQuietly, Bool.or_eq_true, decide_eq_true_eq,
        Bool.not_eq_true'] at h1
      exact h1
    rw [generate_report_with_retry]
    rcases ht with h3 | h3
    · rw [if_neg (by simp [h3])]
      exact retry_all_quiet_fail cv_name jr ca language rest h.2
    · by_cases hne : t ≠ ""
      · rw [if_pos hne, if_neg (by simp [h3])]
        exact retry_all_quiet_fail cv_name jr ca language rest h.2
      · rw [if_neg hne]
        exact retry_all_quiet_fail cv_name jr ca language rest h.2

lemma strip_length_le (s : String) : (pyStripS s).length ≤ s.length := by
  have h1 : ∀ (l : List Char), (l.dropWhile isPySpace).length ≤ l.length := by
    intro l
    induction l with
    | nil => simp
    | cons x xs ih =>
      by_cases hx : isPySpace x
      · rw [List.dropWhile_cons_of_pos hx]
        exact Nat.le_trans ih (Nat.le_succ _)
      · rw [List.dropWhile_cons_of_neg hx]
  calc (pyStripS s).length
      = (pyStripL s.toList).length := rfl
    _ ≤ s.toList.length := by
        unfold pyStripL
        rw [List.length_reverse]
        calc ((s.toList.dropWhile isPySpace).reverse.dropWhile isPySpace).length
            ≤ (s.toList.dropWhile isPySpace).reverse.length := h1 _
          _ = (s.toList.dropWhile isPySpace).length := List.length_reverse _
          _ ≤ s.toList.length := h1 _
    _ = s.length := rfl

lemma validate_implies_length {t language : String}
    (h : validate_report_completeness t language = true) :
    500 ≤ t.length := by
  unfold validate_report_completeness at h
  by_cases hc : t = "" ∨ (pyStripS t).length < MIN_REPORT_LENGTH
  · rw [if_pos hc] at h
    exact absurd h (by simp)
  · push_neg at hc
    have := hc.2
    unfold MIN_REPORT_LENGTH at this
    have hle := strip_length_le t
    omega

lemma retry_ok_length (cv_name : Option String) (jr : JobRequirements)
    (ca : CompatibilityAnalysis) (language : String) :
    ∀ (attempts : List AttemptOutcome) (r : String),
      generate_report_with_retry cv_name jr ca language attempts = .ok r →
      500 ≤ r.length
  | [], r, h => by
    rw [generate_report_with_retry] at h
    cases h
    exact generate_fallback_report_length cv_name jr ca language
  | .raises e :: rest, r, h => by
    cases rest with
    | nil => rw [generate_report_with_retry] at h; cases h
    | cons o rest2 =>
      rw [generate_report_with_retry] at h
      exact retry_ok_length cv_name jr ca language (o :: rest2) r h
  | .returns none :: rest, r, h => by
    rw [generate_report_with_retry] at h
    exact retry_ok_length cv_name jr ca language rest r h
  | .returns (some t) :: rest, r, h => by
    rw [generate_report_with_retry] at h
    by_cases hne : t ≠ ""
    · rw [if_pos hne] at h
      by_cases hv : validate_report_completeness t language = true
      · rw [if_pos hv] at h
        cases h
        exact validate_implies_length hv
      · rw [if_neg hv] at h
        exact retry_ok_length cv_name jr ca language rest r h
    · rw [if_neg hne] at h
      exact retry_ok_length cv_name jr ca language rest r h


/-! ## Tool dispatch (src/tools/tool_definitions.py, `execute_tool`)

Streamlit session state is the `SessionState` record (absent keys are
`none`). Tool results keep the `success` flag and `message` of the
returned dictionaries. The Python call
`self.job_compatibility_analyzer.generate_compatibility_report(job_description, report_language, company_name)`
(line 242) passes three positional arguments to a method declared as
`generate_compatibility_report(self, job_description, language="en")`
(src/tools/job_compatibility_tool.py, lines 1092-1096); CPython rejects
the call with a `TypeError` before the method body runs. The dynamic
call is modelled by `call_generate_compatibility_report`, which
dispatches on the number of positional arguments exactly as the
interpreter does. -/

structure SessionState where
  last_compatibility_report : Option String
  last_job_title : Option String
  last_company_name : Option String
  last_report_language : Option String
  pdf_data : Option (List ℕ)
  pdf_filename : Option String
deriving DecidableEq

/-- A session with none of the compatibility keys set. -/
def emptySession : SessionState where
  last_compatibility_report := none
  last_job_title := none
  last_company_name := none
  last_report_language := none
  pdf_data := none
  pdf_filename := none

structure ToolResult where
  success : Bool
  message : String
deriving DecidableEq

/-- The dynamic call semantics of
`analyzer.generate_compatibility_report(*args)`: the method accepts one
or two positional arguments after `self`; any other arity raises
`TypeError` before the body runs. A `None` argument behaves like its
falsy default inside the body. -/
def call_generate_compatibility_report (cv_name : Option String) (env : ReportEnv)
    (posArgs : List (Option String)) : Except String ReportResult :=
  match posArgs with
  | [jd] => .ok (generate_compatibility_report cv_name env (jd.getD "") "en")
  | [jd, lang] => .ok (generate_compatibility_report cv_name env (jd.getD "") (lang.getD ""))
  | _ => .error
      "generate_compatibility_report() takes from 2 to 3 positional arguments but 4 were given"

structure AnalyzeArgs where
  job_description : Option String
  report_language : Option String
  company_name : Option String
deriving DecidableEq

/-- The `analyze_job_compatibility` branch of `execute_tool`
(src/tools/tool_definitions.py, lines 218-271). The branch validates the
analyzer and the job description, defaults an invalid `report_language`
to `"en"`, then calls the analyzer with three positional arguments; the
resulting `TypeError` is caught by the branch\x27s `except` handler, which
returns a failure result and leaves the session untouched. Were the call
to succeed, the success path would still fail:
`report_data["company_name"]` (line 252) reads a key absent from the
success dictionary (src/tools/job_compatibility_tool.py, lines
1191-1204), raising `KeyError` into the same handler. -/
def execute_tool_analyze (initialized : Bool) (cv_name : Option String)
    (env : ReportEnv) (args : AnalyzeArgs) (session : SessionState) :
    ToolResult × SessionState :=
  if !initialized then
    ({ success := false, message := "Job compatibility analyzer not initialized" }, session)
  else
    let job_description := args.job_description.getD ""
    if job_description = "" then
      ({ success := false, message := "Job description is required" }, session)
    else
      let report_language0 := args.report_language.getD "en"
      let report_language :=
        if report_language0 = "en" ∨ report_language0 = "tr" then report_language0 else "en"
      match call_generate_compatibility_report cv_name env
          [some job_description, some report_language, args.company_name] with
      | .error e =>
        ({ success := false, message := "Error analyzing job compatibility: " ++ e }, session)
      | .ok (.error msg _) => ({ success := false, message := msg }, session)
      | .ok (.success _ _ _) =>
        ({ success := false,
           message := "Error analyzing job compatibility: \x27company_name\x27" }, session)

/-- The document-generator collaborator of the
`generate_compatibility_pdf` branch: the bytes produced by
`pdf_generator.generate_pdf` (or the exception it raises), and the
timestamp used for the stored filename. -/
structure PdfEnv where
  result : Except String (List ℕ)
  timestamp : String

/-- The `generate_compatibility_pdf` branch of `execute_tool`
(src/tools/tool_definitions.py, lines 178-216): a missing or empty
stored report yields a clean failure result before any collaborator is
consulted; otherwise the generated bytes and filename are stored in the
session. -/
def execute_tool_pdf (pdf : PdfEnv) (session : SessionState) :
    ToolResult × SessionState :=
  let report_content := session.last_compatibility_report
  if report_content = none ∨ report_content = some "" then
    ({ success := false,
       message := "I couldn\x27t find a report to generate a PDF from. Please run a new analysis first." },
     session)
  else
    match pdf.result with
    | .error e => ({ success := false, message := "Error generating PDF: " ++ e }, session)
    | .ok pdf_bytes =>
      ({ success := true, message := "PDF report generated successfully" },
       { session with
          pdf_data := some pdf_bytes
          pdf_filename := some ("job_compatibility_report_" ++ pdf.timestamp ++ ".pdf") })

/-- A compatibility analysis holding only the zero-valued defaults, with
no error marker. -/
def sampleAnalysis : CompatibilityAnalysis where
  overall_compatibility_score := 0
  skill_analysis :=
    { required_skills_match := 0
      matched_required_skills := []
      missing_required_skills := []
      additional_relevant_skills := [] }
  experience_analysis :=
    { meets_experience_requirement := false
      relevant_experience_years := 0
      relevant_experiences := []
      experience_quality_score := 0 }
  education_analysis :=
    { meets_education_requirement := false
      education_relevance_score := 0
      relevant_education := [] }
  project_analysis := { relevant_projects := [], project_relevance_score := 0 }
  strengths := []
  weaknesses := []
  recommendations := []
  error := none

end Portfolio

/-! ## Claim theorems (C6, C10, C8, C4, C3, C5, C7) -/

namespace Portfolio

/-- C6: the keyword boost is non-negative and purely additive: it equals
the fixed increment 0.2 times the number of configured trigger keywords
that occur in the lowercased query and whose synonym set intersects the
lowercased chunk; hence it is monotone in the set of firing triggers, so
a chunk firing a superset of triggers (for example 3 instead of 1) scores
at least as high. -/
theorem keyword_boost_additive_monotone (q1 q2 chunk : String)
    (hmono : ∀ kv ∈ keyword_mappings,
      triggerFires q1 chunk kv = true → triggerFires q2 chunk kv = true) :
    0 ≤ calculate_keyword_boost q1 chunk ∧
    calculate_keyword_boost q1 chunk
      = KEYWORD_BOOST_SCORE * keyword_mappings.countP (triggerFires q1 chunk) ∧
    calculate_keyword_boost q1 chunk ≤ calculate_keyword_boost q2 chunk := by
  have h1 := calculate_keyword_boost_eq_count q1 chunk
  have h2 := calculate_keyword_boost_eq_count q2 chunk
  have hcount : keyword_mappings.countP (triggerFires q1 chunk)
      ≤ keyword_mappings.countP (triggerFires q2 chunk) :=
    List.countP_mono_left hmono
  refine ⟨?_, h1, ?_⟩
  · rw [h1]
    exact mul_nonneg (by norm_num [KEYWORD_BOOST_SCORE]) (Nat.cast_nonneg _)
  · rw [h1, h2]
    have : (keyword_mappings.countP (triggerFires q1 chunk) : ℚ)
        ≤ (keyword_mappings.countP (triggerFires q2 chunk) : ℚ) := by
      exact_mod_cast hcount
    have hpos : (0:ℚ) ≤ KEYWORD_BOOST_SCORE := by norm_num [KEYWORD_BOOST_SCORE]
    exact mul_le_mul_of_nonneg_left this hpos

/-- Witness for C6 at concrete inputs: the query "projects education" fires
every trigger the query "projects" fires on the same chunk, and the boosts
compare as claimed. -/
theorem keyword_boost_additive_monotone_witness :
    0 ≤ calculate_keyword_boost "projects" "project and education work" ∧
    calculate_keyword_boost "projects" "project and education work"
      = KEYWORD_BOOST_SCORE
          * keyword_mappings.countP (triggerFires "projects" "project and education work") ∧
    calculate_keyword_boost "projects" "project and education work"
      ≤ calculate_keyword_boost "projects education" "project and education work" :=
  keyword_boost_additive_monotone "projects" "projects education"
    "project and education work" (by decide)

/-- C10: each of the 11 configured triggers contributes at most one 0.2
increment, so the total keyword boost always lies in [0, 2.2]. -/
theorem keyword_boost_bounded (query chunk : String) :
    0 ≤ calculate_keyword_boost query chunk ∧
    calculate_keyword_boost query chunk ≤ 11/5 := by
  rw [calculate_keyword_boost_eq_count]
  constructor
  · exact mul_nonneg (by norm_num [KEYWORD_BOOST_SCORE]) (Nat.cast_nonneg _)
  · have hlen : keyword_mappings.countP (triggerFires query chunk)
        ≤ keyword_mappings.length := List.countP_le_length _
    have hlen11 : keyword_mappings.length = 11 := by decide
    have : (keyword_mappings.countP (triggerFires query chunk) : ℚ) ≤ 11 := by
      rw [hlen11] at hlen
      exact_mod_cast hlen
    calc KEYWORD_BOOST_SCORE * keyword_mappings.countP (triggerFires query chunk)
        ≤ KEYWORD_BOOST_SCORE * 11 := by
          apply mul_le_mul_of_nonneg_left this
          norm_num [KEYWORD_BOOST_SCORE]
      _ = 11/5 := by norm_num [KEYWORD_BOOST_SCORE]

/-- C8: any input text containing a diacritic exclusive to the Turkish
alphabet (ç, ğ, ı, ö, ş, ü) is classified as Turkish by
`detect_from_text`, regardless of its English keyword or phrase content,
and detection is pure and deterministic (identical input yields identical
output). -/
theorem detect_turkish_diacritic (text : List Char) (c : Char)
    (hc : c ∈ text) (hturk : c ∈ TURKISH_CHARS) :
    detect_from_text text = Language.TURKISH ∧
    detect_from_text text = detect_from_text text := by
  refine ⟨?_, rfl⟩
  have htl : c ∈ pyStripL (pyLowerL text) :=
    mem_pyStripL_of_mem (mem_pyLowerL_of_fixed hc (turkish_char_lower_fixed hturk))
      (turkish_char_not_space hturk)
  have hne : text ≠ [] := List.ne_nil_of_mem hc
  unfold detect_from_text
  rw [if_neg hne]
  set tl := pyStripL (pyLowerL text) with htl_def
  have hany : TURKISH_CHARS.any (fun ch => tl.contains ch) = true := by
    rw [List.any_eq_true]
    exact ⟨c, hturk, List.elem_eq_true_of_mem htl⟩
  have hhi : ¬ (tl.length ≤ 3 ∧ (tl = "hi".toList ∨ tl = "hey".toList)) := by
    rintro ⟨-, h | h⟩ <;> rw [h] at htl <;>
      exact turkish_char_not_in_english_greeting hturk (by decide) htl
  have heng : tl ∉ ENGLISH_GREETINGS := fun hw =>
    turkish_char_not_in_english_greeting hturk hw htl
  rw [if_neg hhi]
  by_cases hsm : tl.length ≤ 3 ∧ (tl = "selam".toList ∨ tl = "mrb".toList)
  · rw [if_pos hsm]
  · rw [if_neg hsm]
    by_cases htg : tl ∈ TURKISH_GREETINGS
    · rw [if_pos htg]
    · rw [if_neg htg, if_neg heng, if_pos hany]

/-- A cache state whose identity record matches but whose stored chunk
and embedding counts disagree (1 chunk, 2 embedding rows). -/
def mismatchedCacheStore : CacheStore where
  embeddingsFile := some (.ok [[1], [2]])
  chunksFile := some (.ok ["a"])
  infoFile := some (.ok
    { cv_file_path := some "selman-cv.json"
      cv_file_hash := some "abc123"
      chunks_count := some 1
      embedding_model := some "models/text-embedding-004" })

/-- Counterexample to C4 as stated: `is_cache_valid` returns `true` on a
store whose persisted chunk and embedding counts disagree — the count
comparison is not part of `is_cache_valid`. -/
theorem is_cache_valid_ignores_counts :
    is_cache_valid mismatchedCacheStore "selman-cv.json" "abc123" = true ∧
    mismatchedCacheStore.chunksFile = some (.ok ["a"]) ∧
    mismatchedCacheStore.embeddingsFile = some (.ok [[1], [2]]) ∧
    ["a"].length ≠ [[(1:ℚ)], [2]].length := by
  refine ⟨by decide, rfl, rfl, by decide⟩

/-- C4 (amended): `is_cache_valid` is true exactly when the three cache
artifacts exist and the identity record's path, content hash and
embedding-model id match the current state (it performs no count check);
the count agreement is enforced by `load_from_cache`, whose two returned
components always carry equal lengths or are both `None` — a mismatched
stored pair is never handed back, in full or in part. -/
theorem cache_isvalid_load_pair (st : CacheStore) (path hash : String) :
    (is_cache_valid st path hash = true ↔
      st.embeddingsFile.isSome ∧ st.chunksFile.isSome ∧
      ∃ info, st.infoFile = some (.ok info) ∧
        info.cv_file_path = some path ∧
        info.cv_file_hash = some hash ∧
        info.embedding_model = some EMBEDDING_MODEL) ∧
    (load_from_cache st).1.map List.length = (load_from_cache st).2.map List.length := by
  obtain ⟨emb, ch, inf⟩ := st
  constructor
  · rcases inf with _ | info
    · simp [is_cache_valid, get_cache_info]
    · rcases info with info | _
      · simp only [is_cache_valid, get_cache_info, Option.isSome_some, and_true]
        split_ifs with hA h1 h2 h3 <;> simp_all
      · simp [is_cache_valid, get_cache_info]
  · rcases ch with _ | ch <;> rcases emb with _ | embv
    · simp [load_from_cache]
    · rcases embv with e | _ | _ <;> simp [load_from_cache]
    · simp [load_from_cache]
    · rcases ch with c | _ | _ <;> rcases embv with e | _ | _ <;>
        simp only [load_from_cache] <;> try simp
      split_ifs with hlen
      · simp [hlen]
      · simp

/-- A concrete builder instance, used only to evaluate `json_to_chunks`
at a closed data point. -/
def constBuilder : ChunkBuilder where
  build_basic_info := fun _ => "BASIC"
  build_links_chunk := fun _ => "LINKS"
  build_education_chunk := fun _ => "EDU"
  build_experience_chunk := fun _ => "EXP"
  build_project_chunk := fun _ => "PROJ"
  build_skills_chunk := fun _ => "SKILLS"

/-- A CV whose only populated list section is a single award. -/
def awardsOnlyCV : CVData where
  links := []
  education := []
  experience := []
  skills := []
  projects := []
  awards := [{ name := some "Best Paper", organization := some "IEEE", description := none }]
  languages := []
  organizations := []
  references := []

/-- Counterexample to C3 as stated: a résumé with exactly one award
yields two chunks (basic info plus the single award chunk) — there is no
aggregate awards summary chunk, so the awards section contributes n
chunks, not n + 1. -/
theorem json_to_chunks_awards_no_summary :
    json_to_chunks constBuilder awardsOnlyCV
      = ["BASIC", "Award: Best Paper\nOrganization: IEEE\nDescription: N/A"] ∧
    (json_to_chunks constBuilder awardsOnlyCV).length
      ≠ 1 + (awardsOnlyCV.awards.length + 1) := by
  exact ⟨by decide, by decide⟩

lemma length_ite_nil {c : Prop} [Decidable c] (l : List String) :
    (if c then ([] : List String) else l).length = if c then 0 else l.length := by
  split <;> rfl

/-- C3 (amended): the education, experience and projects sections each
produce one chunk per item plus one aggregate summary chunk when
non-empty; the awards and organizations sections produce exactly one
chunk per item and no aggregate summary chunk; links, skills, languages
and references contribute one chunk each when non-empty, after the
always-present basic-info chunk. -/
theorem json_to_chunks_count (cb : ChunkBuilder) (data : CVData) :
    (json_to_chunks cb data).length =
      1 + (if data.links = [] then 0 else 1)
        + (if data.education = [] then 0 else data.education.length + 1)
        + (if data.experience = [] then 0 else data.experience.length + 1)
        + (if data.skills = [] then 0 else 1)
        + (if data.projects = [] then 0 else data.projects.length + 1)
        + data.awards.length
        + (if data.languages = [] then 0 else 1)
        + data.organizations.length
        + (if data.references = [] then 0 else 1) := by
  simp only [json_to_chunks, List.length_append, length_ite_nil, List.length_map,
    List.length_cons, List.length_nil, List.length_singleton]

/-- C5: the pre-boost cosine similarity computed by
`search_similar_chunks` always lies in [-1, 1]; the division by
`‖query‖·‖chunk‖` happens only under the strict-positivity guard, and a
zero norm on either side yields similarity 0 (never NaN, never a division
by zero). -/
theorem cosine_similarity_bounded (q c : List ℝ) :
    -1 ≤ cosineSimilarity q c ∧ cosineSimilarity q c ≤ 1 ∧
    (pyNorm q = 0 ∨ pyNorm c = 0 → cosineSimilarity q c = 0) := by
  by_cases h : 0 < pyNorm q ∧ 0 < pyNorm c
  · have habs : |dotL q c| ≤ pyNorm q * pyNorm c := by
      rw [← Real.sqrt_sq_eq_abs]
      unfold pyNorm
      rw [← Real.sqrt_mul (dotL_self_nonneg q)]
      exact Real.sqrt_le_sqrt (dotL_sq_le q c)
    have hpos : 0 < pyNorm q * pyNorm c := mul_pos h.1 h.2
    have habs2 : |cosineSimilarity q c| ≤ 1 := by
      rw [cosineSimilarity, if_pos h, abs_div, abs_of_pos hpos]
      exact div_le_one_of_le₀ habs (le_of_lt hpos)
    refine ⟨(abs_le.mp habs2).1, (abs_le.mp habs2).2, ?_⟩
    rintro (h0 | h0)
    · exact absurd h0 (ne_of_gt h.1)
    · exact absurd h0 (ne_of_gt h.2)
  · rw [cosineSimilarity, if_neg h]
    exact ⟨by norm_num, by norm_num, fun _ => rfl⟩

/-- Witness for C5 at a concrete zero-norm input: the similarity against
the zero vector is 0, obtained from the theorem with its zero-norm
hypothesis discharged by evaluation. -/
theorem cosine_similarity_bounded_witness :
    cosineSimilarity [(0:ℝ)] [(3:ℝ)] = 0 :=
  (cosine_similarity_bounded [(0:ℝ)] [(3:ℝ)]).2.2
    (Or.inl (by norm_num [pyNorm, dotL]))

/-- C7: `search_similar_chunks` returns exactly the first `top_k` entries
of the scored chunk list sorted in descending order of final score
(cosine similarity plus keyword boost); the sorted list is a permutation
of the original entry list and the sort is stable — for every score
value, the entries holding that score appear in their original insertion
order. -/
theorem search_sorted_stable_topk (query : String) (query_vec : List ℝ)
    (chunkData : List (String × List ℝ)) (top_k : ℕ) :
    search_similar_chunks query query_vec chunkData top_k
      = (sortDesc (mkSimilarities query query_vec chunkData)).take top_k ∧
    List.Sorted (fun a b => b.similarity ≤ a.similarity)
      (sortDesc (mkSimilarities query query_vec chunkData)) ∧
    List.Perm (sortDesc (mkSimilarities query query_vec chunkData))
      (mkSimilarities query query_vec chunkData) ∧
    ∀ s : ℝ,
      (sortDesc (mkSimilarities query query_vec chunkData)).filter
          (fun e => decide (e.similarity = s))
        = (mkSimilarities query query_vec chunkData).filter
            (fun e => decide (e.similarity = s)) :=
  ⟨rfl, sortDesc_sorted _, sortDesc_perm _, fun s => filter_sortDesc _ s⟩

/-- Witness for C8: a message full of English keywords but containing the
Turkish diacritic ç is classified as Turkish. -/
theorem detect_turkish_diacritic_witness :
    detect_from_text "i want to know about the çay project".toList = Language.TURKISH ∧
    detect_from_text "i want to know about the çay project".toList
      = detect_from_text "i want to know about the çay project".toList :=
  detect_turkish_diacritic "i want to know about the çay project".toList 'ç'
    (by decide) (by decide)


/-- A pipeline run in which the model call raises on every one of the 3
report-generation attempts. -/
def threeRaisesEnv : ReportEnv where
  jobRequirements := { position_title := "Software Engineer" }
  cvContext := "Relevant CV context"
  analysis := sampleAnalysis
  attempts := [.raises "boom", .raises "boom", .raises "boom"]

/-- Counterexample to C1 as stated: when the generation call raises on
all 3 attempts, `_generate_report_with_retry` re-raises on the final
attempt (`attempt == max_retries - 1`), and `generate_compatibility_report`
returns an error record — not the fallback report. -/
theorem report_error_when_all_attempts_raise :
    generate_compatibility_report (some "Selman Dedeakayoğulları") threeRaisesEnv
      "We are hiring a software engineer." "en"
      = ReportResult.error "❌ Unexpected error: boom" "system" := by decide

/-- C1 (amended): for every accepted job description (non-empty text,
non-empty extracted position title, non-empty CV context, analysis not
rejected), if every one of the 3 report-generation attempts fails
WITHOUT raising — the model returns a missing, empty, or incomplete
text — then `generate_compatibility_report` returns the deterministic
template-filled fallback report, whose length is at least
`MIN_REPORT_LENGTH = 500`; an exception raised on the final attempt
instead propagates into an error record (see the counterexample). -/
theorem report_fallback_on_quiet_failures (cv_name : Option String) (env : ReportEnv)
    (jd language : String)
    (hjd : ¬(jd = "" ∨ pyStripS jd = ""))
    (htitle : ¬(env.jobRequirements.position_title = ""))
    (hctx : ¬(env.cvContext = ""))
    (hana : ¬(env.analysis.error.isSome ∧ env.analysis.overall_compatibility_score = 0))
    (_hlen : env.attempts.length = MAX_RETRIES)
    (hfail : env.attempts.all (attemptFailsQuietly language) = true) :
    generate_compatibility_report cv_name env jd language
      = ReportResult.success
          (generate_fallback_report cv_name env.jobRequirements env.analysis language)
          env.jobRequirements.position_title
          env.analysis.overall_compatibility_score ∧
    MIN_REPORT_LENGTH ≤
      (generate_fallback_report cv_name env.jobRequirements env.analysis language).length := by
  constructor
  · unfold generate_compatibility_report
    rw [if_neg hjd, if_neg htitle, if_neg hctx, if_neg hana,
      retry_all_quiet_fail cv_name env.jobRequirements env.analysis language
        env.attempts hfail]
  · exact generate_fallback_report_length cv_name env.jobRequirements env.analysis language

/-- A pipeline run whose 3 attempts fail quietly: a `None` response, an
empty response, and a response too short to validate. -/
def quietFailEnv : ReportEnv where
  jobRequirements := { position_title := "Software Engineer" }
  cvContext := "Relevant CV context"
  analysis := sampleAnalysis
  attempts := [.returns none, .returns (some ""), .returns (some "too short")]

/-- Witness for C1 at a concrete run whose 3 attempts all return
incomplete text: the fallback report is returned and is at least 500
characters long. -/
theorem report_fallback_on_quiet_failures_witness :
    generate_compatibility_report (some "Selman Dedeakayoğulları") quietFailEnv
        "We are hiring a software engineer." "en"
      = ReportResult.success
          (generate_fallback_report (some "Selman Dedeakayoğulları")
            quietFailEnv.jobRequirements quietFailEnv.analysis "en")
          quietFailEnv.jobRequirements.position_title
          quietFailEnv.analysis.overall_compatibility_score ∧
    MIN_REPORT_LENGTH ≤
      (generate_fallback_report (some "Selman Dedeakayoğulları")
        quietFailEnv.jobRequirements quietFailEnv.analysis "en").length :=
  report_fallback_on_quiet_failures (some "Selman Dedeakayoğulları") quietFailEnv
    "We are hiring a software engineer." "en"
    (by decide) (by decide) (by decide) (by decide) (by decide) (by decide)

/-- The analyzer environment of the C2 evaluation; its contents are
irrelevant because the dynamic call never reaches the method body. -/
def c2Env : ReportEnv where
  jobRequirements := { position_title := "ML Engineer" }
  cvContext := "Relevant CV context"
  analysis := sampleAnalysis
  attempts := []

/-- C2, evaluated at the failing input: with the analyzer initialized
and all three arguments supplied and valid, the
`analyze_job_compatibility` branch of `execute_tool` passes three
positional arguments to the two-parameter method
`generate_compatibility_report`, so the call raises `TypeError`; the
branch returns a failure result (success = false) and persists nothing
into session state — the success path promised by the claim is
unreachable. -/
theorem analyze_tool_arity_type_error :
    execute_tool_analyze true (some "Selman Dedeakayoğulları") c2Env
      { job_description := some "We need an ML engineer experienced with Python."
        report_language := some "en"
        company_name := some "Acme" }
      emptySession
      = ({ success := false,
           message := "Error analyzing job compatibility: generate_compatibility_report() takes from 2 to 3 positional arguments but 4 were given" },
         emptySession) := by decide

/-- C9: whenever `generate_compatibility_pdf` is dispatched with no
previously stored compatibility report in session state (the key absent
or empty), `execute_tool` returns a failure result carrying the
run-a-new-analysis-first message, it leaves the session unchanged, and
it does so for every document-generator collaborator — even one that
would raise — so no exception can reach the caller. -/
theorem pdf_tool_requires_prior_report (pdf : PdfEnv) (session : SessionState)
    (h : session.last_compatibility_report = none ∨
      session.last_compatibility_report = some "") :
    execute_tool_pdf pdf session
      = ({ success := false,
           message := "I couldn\x27t find a report to generate a PDF from. Please run a new analysis first." },
         session) := by
  unfold execute_tool_pdf
  rw [if_pos h]

/-- Witness for C9: on an empty session, even a crashing PDF generator
yields the clean run-a-new-analysis-first failure. -/
theorem pdf_tool_requires_prior_report_witness :
    execute_tool_pdf { result := .error "collaborator crashed", timestamp := "20260101_000000" }
      emptySession
      = ({ success := false,
           message := "I couldn\x27t find a report to generate a PDF from. Please run a new analysis first." },
         emptySession) :=
  pdf_tool_requires_prior_report
    { result := .error "collaborator crashed", timestamp := "20260101_000000" }
    emptySession (Or.inl rfl)

end Portfolio
